import Mathlib

/-!
Shallow embedding of `src/preflight.py` (GKE preflight diagnostic probe).

The external world is modelled by an `Env`: the outcome of every shell
command handed to `run_command`, the process environment variable list, and
file existence. The Kubernetes interaction in `get_gke_version` is modelled
by an outcome type covering the exception classes the source handles.
Python `re.search` with the three concrete patterns of the source
(`Kernel Module\s+([\d.]+)`, `CUDA Version\s+([\d.]+)`, `release\s+([\d.]+)`)
is embedded as a leftmost search for a literal marker followed by one or
more whitespace characters and a maximal nonempty run of digit/dot
characters (whitespace and digit/dot are disjoint, so greedy matching
reduces to maximal runs).
-/

namespace Preflight

/-- Python whitespace (`\s`, `str.strip`), restricted to the ASCII set. -/
def isWs (c : Char) : Bool :=
  c = ' ' || c = '\t' || c = '\n' || c = '\r' || c = '\x0b' || c = '\x0c'

/-- A character matched by the regex class `[\d.]`. -/
def isVerChar (c : Char) : Bool :=
  c.isDigit || c = '.'

/-- Python `str.strip()`: trim whitespace at both ends. -/
def pyStrip (s : String) : String :=
  String.mk (((s.toList.dropWhile isWs).reverse.dropWhile isWs).reverse)

/-- Python truthiness of a `str | None` value: `None` and `""` are falsy. -/
def truthy : Option String → Bool
  | none => false
  | some s => !(s == "")

/-- Longest prefix of characters satisfying `p`, together with the rest. -/
def takeRun (p : Char → Bool) : List Char → List Char × List Char
  | [] => ([], [])
  | c :: cs =>
    if p c then
      let r := takeRun p cs
      (c :: r.1, r.2)
    else ([], c :: cs)

/-- Drop a literal marker from the head of a character list, if it is there. -/
def dropMarker : List Char → List Char → Option (List Char)
  | [], cs => some cs
  | _ :: _, [] => none
  | m :: ms, c :: cs => if m = c then dropMarker ms cs else none

/-- Try to match `marker`, then `\s+`, then a captured `[\d.]+`, at the head
of `cs`; return the captured group. -/
def tryMatch (marker : List Char) (cs : List Char) : Option (List Char) :=
  match dropMarker marker cs with
  | none => none
  | some rest =>
    if (takeRun isWs rest).1 = [] then none
    else if (takeRun isVerChar (takeRun isWs rest).2).1 = [] then none
    else some (takeRun isVerChar (takeRun isWs rest).2).1

/-- Leftmost search: try `tryMatch` at every start position, left to right. -/
def searchAux (marker : List Char) : List Char → Option (List Char)
  | [] => tryMatch marker []
  | c :: cs =>
    match tryMatch marker (c :: cs) with
    | some r => some r
    | none => searchAux marker cs

/-- Embedding of the Python searches of the form
`re.search(marker + whitespace + captured digits/dots, s)`, returning the
captured group. -/
def reSearchVer (marker : String) (s : String) : Option String :=
  (searchAux marker.toList s.toList).map String.mk

/-- A dotted-number version string: nonempty, all characters digits or dots.
This is the (necessary) well-formedness predicate for "a dotted-number
sequence" used to settle the well-formedness claims. -/
def isDottedNum (s : String) : Bool :=
  (!(s == "")) && s.toList.all isVerChar

/-- Outcome of one external shell command, covering every case the source
distinguishes: zero exit with captured output, nonzero exit
(`CalledProcessError`), timeout (`TimeoutExpired`), and a missing command
interpreter (`FileNotFoundError`). stderr is merged into stdout by the
source, so a single captured stream suffices. -/
inductive CmdOutcome where
  | success (stdout : String)
  | calledProcessError (stdout : String)
  | timeoutExpired (stdout : Option String)
  | fileNotFoundError
  deriving DecidableEq

/-- The external world as the probes see it. -/
structure Env where
  cmd : String → CmdOutcome
  environ : List (String × String)
  pathExists : String → Bool

/-- Embedding of `os.environ.get(key)`. -/
def Env.getenv (e : Env) (key : String) : Option String :=
  (e.environ.find? (fun p => p.fst == key)).map Prod.snd

/-- The `timeout=10` argument of `subprocess.run` in `run_command`. -/
def run_command_timeout : Nat := 10

/-- Embedding of `run_command`: stripped stdout on zero exit status;
`None` (after logging) on nonzero exit, timeout, or missing interpreter. -/
def run_command (env : Env) (command : String) : Option String :=
  match env.cmd command with
  | .success out => some (pyStrip out)
  | .calledProcessError _ => none
  | .timeoutExpired _ => none
  | .fileNotFoundError => none

def smiCommand : String :=
  "nvidia-smi --query-gpu=driver_version --format=csv,noheader"

def procDriverCommand : String := "cat /proc/driver/nvidia/version"

/-- Second strategy of the driver probe: read the kernel-module status
pseudo-file and extract the number after "Kernel Module". -/
def driver_from_proc (env : Env) : Option String :=
  let version_text := run_command env procDriverCommand
  if truthy version_text then
    match reSearchVer "Kernel Module" (version_text.getD "") with
    | some m => some m
    | none => none
  else none

/-- Embedding of `get_nvidia_driver_version`: `nvidia-smi` output verbatim
if truthy, otherwise the kernel-module fallback. -/
def get_nvidia_driver_version (env : Env) : Option String :=
  let version := run_command env smiCommand
  if truthy version then version
  else driver_from_proc env

def cudaFileCommand : String := "cat /usr/local/cuda/version.txt"

def nvccCommand : String := "nvcc --version"

/-- Second strategy of the CUDA probe: `nvcc --version` and extract the
number after "release". -/
def cuda_from_nvcc (env : Env) : Option String :=
  let version_text := run_command env nvccCommand
  if truthy version_text then
    match reSearchVer "release" (version_text.getD "") with
    | some m => some m
    | none => none
  else none

/-- Embedding of `get_cuda_version`: version file first (falling through to
`nvcc` when the file read fails or the pattern does not match), then
`nvcc`. -/
def get_cuda_version (env : Env) : Option String :=
  let version_text := run_command env cudaFileCommand
  if truthy version_text then
    match reSearchVer "CUDA Version" (version_text.getD "") with
    | some m => some m
    | none => cuda_from_nvcc env
  else cuda_from_nvcc env

/-- The shell command built by the f-string in `get_nccl_version`: grep for
the NCCL field define in the header path, piped to awk printing the third
column. -/
def ncclCmd (field : String) (path : String) : String :=
  "grep \x27#define NCCL_" ++ field ++ "\x27 " ++ path ++
    " | awk \x27\x7bprint $3\x7d\x27"

/-- The ordered candidate header path list `nccl_h_paths`. -/
def nccl_h_paths : List String :=
  ["/usr/include/nccl.h", "/usr/local/cuda/include/nccl.h"]

/-- The `for nccl_h_path in nccl_h_paths` loop of `get_nccl_version`:
for each existing candidate, extract MAJOR/MINOR/PATCH; return a join when
MAJOR and MINOR (and possibly PATCH) are truthy, otherwise keep scanning. -/
def ncclScan (env : Env) : List String → Option String
  | [] => none
  | p :: ps =>
    if env.pathExists p then
      let major := run_command env (ncclCmd "MAJOR" p)
      let minor := run_command env (ncclCmd "MINOR" p)
      let patch := run_command env (ncclCmd "PATCH" p)
      if truthy major && truthy minor && truthy patch then
        some (major.getD "" ++ "." ++ minor.getD "" ++ "." ++ patch.getD "")
      else if truthy major && truthy minor then
        some (major.getD "" ++ "." ++ minor.getD "")
      else ncclScan env ps
    else ncclScan env ps

/-- Embedding of `get_nccl_version`: the `NCCL_VERSION` environment
variable if truthy, otherwise the header scan. -/
def get_nccl_version (env : Env) : Option String :=
  let nccl_version := env.getenv "NCCL_VERSION"
  if truthy nccl_version then nccl_version
  else ncclScan env nccl_h_paths

/-- Outcome of the Kubernetes interaction inside `get_gke_version`,
covering the handled exception classes: success with a `git_version`,
`config.ConfigException`, `kubernetes.client.rest.ApiException`, and any
other `Exception`. -/
inductive K8sOutcome where
  | success (git_version : String)
  | configException
  | apiException (msg : String)
  | unexpectedException (msg : String)
  deriving DecidableEq

/-- Embedding of `get_gke_version`: `None` when the kubernetes client
library is not installed; otherwise the `git_version` on success and
`None` (after logging) on every handled exception. -/
def get_gke_version (kubernetes_installed : Bool) (o : K8sOutcome) :
    Option String :=
  if kubernetes_installed then
    match o with
    | .success v => some v
    | .configException => none
    | .apiException _ => none
    | .unexpectedException _ => none
  else none

/-- Python or-default substitution used by `detect_gpu_libraries`: a falsy
probe result prints as the sentinel text Not found. -/
def orNotFound (v : Option String) : String :=
  if truthy v then v.getD "" else "Not found"

/-- The lines printed by `detect_gpu_libraries`. -/
def detect_gpu_libraries (env : Env) : List String :=
  ["\nGPU Library Versions:",
   "- NVIDIA Driver: " ++ orNotFound (get_nvidia_driver_version env),
   "- CUDA: " ++ orNotFound (get_cuda_version env),
   "- NCCL: " ++ orNotFound (get_nccl_version env)]

/-- The environment dump printed at the top of `main`. -/
def env_dump_lines (env : Env) : List String :=
  "--- Environment Variables ---" ::
    (env.environ.map (fun p => p.fst ++ "=" ++ p.snd) ++
      ["---------------------------\n"])

/-- The optional line announcing the `subprocess_ld_path` override. -/
def ld_path_lines : Option String → List String
  | none => []
  | some p => ["Setting LD_LIBRARY_PATH=" ++ p ++ " for subprocesses."]

/-- The control-plane line of the report (`if version: ... else: ...`). -/
def gke_report_line (v : Option String) : String :=
  if truthy v then "Detected Kubernetes version: " ++ v.getD ""
  else "Failed to detect Kubernetes version."

/-- How `main` terminates: `app.UsageError` or normal completion. -/
inductive MainOutcome where
  | usageError
  | normal
  deriving DecidableEq

/-- Result of `main`: the printed lines and how the process terminated. -/
structure MainResult where
  output : List String
  outcome : MainOutcome

/-- Embedding of `main(argv)`: usage error (before any printing) when more
than one positional argument is supplied; otherwise the environment dump, the
optional LD_LIBRARY_PATH line, the control-plane line and the GPU block.
The effect of the LD_LIBRARY_PATH mutation on subprocesses is absorbed in
`Env.cmd`, which already ranges over all command outcomes. -/
def main (argv : List String) (subprocess_ld_path : Option String)
    (kubernetes_installed : Bool) (k8s : K8sOutcome) (env : Env) :
    MainResult :=
  if 1 < argv.length then { output := [], outcome := .usageError }
  else
    { output :=
        env_dump_lines env ++ ld_path_lines subprocess_ld_path ++
          [gke_report_line (get_gke_version kubernetes_installed k8s)] ++
          detect_gpu_libraries env,
      outcome := .normal }

/-! Concrete environments used to instantiate the theorems below. -/

/-- An environment where nothing succeeds and nothing exists. -/
def envBare : Env :=
  { cmd := fun _ => .fileNotFoundError, environ := [], pathExists := fun _ => false }

/-- An environment whose every command succeeds with padded output. -/
def envPadded : Env :=
  { cmd := fun _ => .success " ok \n", environ := [], pathExists := fun _ => false }

/-- An environment where `nvidia-smi` exits zero but prints garbage. -/
def envGarbledSmi : Env :=
  { cmd := fun c =>
      if c = smiCommand then .success "not-a-version!" else .fileNotFoundError,
    environ := [], pathExists := fun _ => false }

/-- An environment where the CUDA version file read succeeds. -/
def envCudaFile : Env :=
  { cmd := fun c =>
      if c = cudaFileCommand then .success "CUDA Version 12.2" else .fileNotFoundError,
    environ := [], pathExists := fun _ => false }

/-- An environment where the CUDA version file is whitespace-only and the
compiler reports a release number. -/
def envEmptyCudaFile : Env :=
  { cmd := fun c =>
      if c = cudaFileCommand then .success "  \n"
      else if c = nvccCommand then .success "Cuda compilation tools, release 12.2, V12.2.140"
      else .fileNotFoundError,
    environ := [], pathExists := fun _ => false }

/-- An environment where `NCCL_VERSION` is set while header files exist and
every command reports a different value. -/
def envNcclEnvVar : Env :=
  { cmd := fun _ => .success "9",
    environ := [("NCCL_VERSION", "2.18.3")], pathExists := fun _ => true }

/-- An environment where the first NCCL header yields MAJOR 2 and MINOR 18
but no PATCH. -/
def envNcclNoPatch : Env :=
  { cmd := fun c =>
      if c = ncclCmd "MAJOR" "/usr/include/nccl.h" then .success "2\n"
      else if c = ncclCmd "MINOR" "/usr/include/nccl.h" then .success "18\n"
      else .calledProcessError "",
    environ := [], pathExists := fun p => p = "/usr/include/nccl.h" }

/-- An environment where both NCCL headers exist, extraction fails on the
first and yields 9.9.9 on the second. -/
def envNcclSecond : Env :=
  { cmd := fun c =>
      if c = ncclCmd "MAJOR" "/usr/local/cuda/include/nccl.h" then .success "9"
      else if c = ncclCmd "MINOR" "/usr/local/cuda/include/nccl.h" then .success "9"
      else if c = ncclCmd "PATCH" "/usr/local/cuda/include/nccl.h" then .success "9"
      else .calledProcessError "",
    environ := [], pathExists := fun _ => true }

/-- Same as `envNcclSecond` except the second header yields 7.7.7. -/
def envNcclSecondAlt : Env :=
  { cmd := fun c =>
      if c = ncclCmd "MAJOR" "/usr/local/cuda/include/nccl.h" then .success "7"
      else if c = ncclCmd "MINOR" "/usr/local/cuda/include/nccl.h" then .success "7"
      else if c = ncclCmd "PATCH" "/usr/local/cuda/include/nccl.h" then .success "7"
      else .calledProcessError "",
    environ := [], pathExists := fun _ => true }

/-- An environment where the first NCCL header yields MAJOR and PATCH but no
MINOR. -/
def envNcclNoMinor : Env :=
  { cmd := fun c =>
      if c = ncclCmd "MAJOR" "/usr/include/nccl.h" then .success "2"
      else if c = ncclCmd "PATCH" "/usr/include/nccl.h" then .success "3"
      else .calledProcessError "",
    environ := [], pathExists := fun p => p = "/usr/include/nccl.h" }

/-! Helper lemmas. -/

theorem takeRun_all (p : Char → Bool) (l : List Char) :
    (takeRun p l).1.all p = true := by
  induction l with
  | nil => rfl
  | cons c cs ih => cases h : p c <;> simp [takeRun, h, ih]

theorem tryMatch_isVer {marker cs r : List Char}
    (h : tryMatch marker cs = some r) : r ≠ [] ∧ r.all isVerChar = true := by
  unfold tryMatch at h
  split at h
  · cases h
  · split at h
    · cases h
    · split at h
      · cases h
      · cases h
        rename_i hn
        exact ⟨hn, takeRun_all _ _⟩

theorem searchAux_isVer {marker : List Char} :
    ∀ {cs r : List Char}, searchAux marker cs = some r →
      r ≠ [] ∧ r.all isVerChar = true := by
  intro cs
  induction cs with
  | nil => intro r h; exact tryMatch_isVer h
  | cons c cs ih =>
    intro r h
    unfold searchAux at h
    split at h
    next x hx => cases h; exact tryMatch_isVer hx
    next => exact ih h

theorem reSearchVer_isDottedNum {marker s v : String}
    (h : reSearchVer marker s = some v) : isDottedNum v = true := by
  unfold reSearchVer at h
  cases hs : searchAux marker.toList s.toList with
  | none => rw [hs] at h; cases h
  | some r =>
    rw [hs, Option.map_some'] at h
    cases h
    have hr := searchAux_isVer hs
    have h1 : (String.mk r == "") = false := by
      rw [beq_eq_false_iff_ne]
      intro hc
      exact hr.1 (congrArg String.data hc)
    unfold isDottedNum
    rw [h1]
    show ((!false) && r.all isVerChar) = true
    simp [hr.2]

theorem driver_from_proc_isDottedNum {env : Env} {v : String}
    (h : driver_from_proc env = some v) : isDottedNum v = true := by
  simp only [driver_from_proc] at h
  split at h
  · split at h
    next m hm => cases h; exact reSearchVer_isDottedNum hm
    next => cases h
  · cases h

theorem cuda_from_nvcc_isDottedNum {env : Env} {v : String}
    (h : cuda_from_nvcc env = some v) : isDottedNum v = true := by
  simp only [cuda_from_nvcc] at h
  split at h
  · split at h
    next m hm => cases h; exact reSearchVer_isDottedNum hm
    next => cases h
  · cases h

theorem get_cuda_version_isDottedNum {env : Env} {v : String}
    (h : get_cuda_version env = some v) : isDottedNum v = true := by
  simp only [get_cuda_version] at h
  split at h
  · split at h
    next m hm => cases h; exact reSearchVer_isDottedNum hm
    next => exact cuda_from_nvcc_isDottedNum h
  · exact cuda_from_nvcc_isDottedNum h

theorem option_shape (o : Option String) : (∃ s, o = some s) ∨ o = none := by
  cases o with
  | none => exact Or.inr rfl
  | some s => exact Or.inl ⟨s, rfl⟩

/-! Claim theorems. -/

/-- C1: for every environment (every outcome of the external commands, file
reads and pattern matches), each of the three GPU probes returns exactly one
result, a version string or the absence marker; as total functions of the
environment they propagate no failure. -/
theorem probes_total (env : Env) :
    ((∃ s, get_nvidia_driver_version env = some s) ∨
      get_nvidia_driver_version env = none) ∧
    ((∃ s, get_cuda_version env = some s) ∨ get_cuda_version env = none) ∧
    ((∃ s, get_nccl_version env = some s) ∨ get_nccl_version env = none) :=
  ⟨option_shape _, option_shape _, option_shape _⟩

/-- C5: run_command returns the trimmed captured output on zero exit status
and the absence marker on nonzero exit, timeout (the bound is 10 units) or a
missing interpreter; being total in the command outcome, it propagates no
failure. -/
theorem run_command_contract (env : Env) (c : String) :
    (∀ s, env.cmd c = CmdOutcome.success s →
      run_command env c = some (pyStrip s)) ∧
    (∀ s, env.cmd c = CmdOutcome.calledProcessError s →
      run_command env c = none) ∧
    (∀ s, env.cmd c = CmdOutcome.timeoutExpired s → run_command env c = none) ∧
    (env.cmd c = CmdOutcome.fileNotFoundError → run_command env c = none) ∧
    run_command_timeout = 10 := by
  refine ⟨fun s h => ?_, fun s h => ?_, fun s h => ?_, fun h => ?_, rfl⟩ <;>
    simp [run_command, h]

/-- Witness for C5 at a concrete command succeeding with padded output. -/
theorem run_command_contract_witness :
    run_command envPadded "ls" = some "ok" :=
  ((run_command_contract envPadded "ls").1 " ok \n" rfl).trans (by decide)

/-- C3: get_gke_version maps every failure outcome (missing client library,
configuration failure, API failure, unexpected exception) to the absence
marker; being total in the outcome, it never terminates the process nor
propagates an exception. -/
theorem get_gke_version_never_raises (inst : Bool) (o : K8sOutcome) :
    ((∀ v, o ≠ K8sOutcome.success v) → get_gke_version inst o = none) ∧
    (inst = false → get_gke_version inst o = none) ∧
    ((∃ s, get_gke_version inst o = some s) ∨ get_gke_version inst o = none) := by
  refine ⟨fun hfail => ?_, fun hinst => ?_, option_shape _⟩
  · cases o with
    | success v => exact absurd rfl (hfail v)
    | configException => cases inst <;> rfl
    | apiException m => cases inst <;> rfl
    | unexpectedException m => cases inst <;> rfl
  · rw [hinst]; rfl

/-- Witness for C3: a configuration failure with the library installed. -/
theorem get_gke_version_never_raises_witness :
    get_gke_version true K8sOutcome.configException = none :=
  (get_gke_version_never_raises true K8sOutcome.configException).1
    (fun _ h => K8sOutcome.noConfusion h)

/-- C2 counterexample: nvidia-smi exits zero printing text that is not a
version string; the driver probe returns it verbatim, so a probe can return
arbitrary non-version text. -/
theorem driver_probe_returns_garbled_text :
    get_nvidia_driver_version envGarbledSmi = some "not-a-version!" ∧
    isDottedNum "not-a-version!" = false :=
  ⟨rfl, rfl⟩

/-- C2 amended: results produced by pattern extraction are dotted-number
strings — every CUDA probe result, and every driver probe result obtained
when the primary nvidia-smi strategy was falsy; results taken verbatim (the
primary driver strategy, the NCCL environment variable and the NCCL header
fields) may be arbitrary text, as the counterexample shows. -/
theorem extraction_results_are_dotted :
    (∀ env v, get_cuda_version env = some v → isDottedNum v = true) ∧
    (∀ env v, truthy (run_command env smiCommand) = false →
      get_nvidia_driver_version env = some v → isDottedNum v = true) := by
  constructor
  · intro env v h
    exact get_cuda_version_isDottedNum h
  · intro env v hf h
    have hd : driver_from_proc env = some v := by
      simpa [get_nvidia_driver_version, hf] using h
    exact driver_from_proc_isDottedNum hd

/-- Witness for the amended C2 at a concrete version-file environment. -/
theorem extraction_results_are_dotted_witness : isDottedNum "12.2" = true :=
  extraction_results_are_dotted.1 envCudaFile "12.2" (by decide)

/-- C6: with NCCL_VERSION set to 2.18.3, the NCCL probe returns 2.18.3 for
every filesystem state, consulting no header file. -/
theorem nccl_env_var_short_circuits (env : Env)
    (h : env.getenv "NCCL_VERSION" = some "2.18.3") :
    get_nccl_version env = some "2.18.3" := by
  unfold get_nccl_version
  rw [h]
  rfl

/-- Witness for C6 where both headers exist and every command reports 9. -/
theorem nccl_env_var_short_circuits_witness :
    get_nccl_version envNcclEnvVar = some "2.18.3" :=
  nccl_env_var_short_circuits envNcclEnvVar (by decide)

/-- C7: with the environment variable falsy, a first existing header
yielding MAJOR 2 and MINOR 18 but no truthy PATCH gives 2.18, and one
yielding all three components gives the three-component join. -/
theorem nccl_joins_components (env : Env) (p : String) (ps : List String) :
    (env.pathExists p = true →
      run_command env (ncclCmd "MAJOR" p) = some "2" →
      run_command env (ncclCmd "MINOR" p) = some "18" →
      truthy (run_command env (ncclCmd "PATCH" p)) = false →
      ncclScan env (p :: ps) = some "2.18") ∧
    (∀ ma mi pa : String,
      env.pathExists p = true →
      run_command env (ncclCmd "MAJOR" p) = some ma →
      run_command env (ncclCmd "MINOR" p) = some mi →
      run_command env (ncclCmd "PATCH" p) = some pa →
      truthy (some ma) = true → truthy (some mi) = true →
      truthy (some pa) = true →
      ncclScan env (p :: ps) = some (ma ++ "." ++ mi ++ "." ++ pa)) ∧
    (truthy (env.getenv "NCCL_VERSION") = false →
      get_nccl_version env = ncclScan env nccl_h_paths) := by
  refine ⟨fun hex hma hmi hpa => ?_, fun ma mi pa hex hma hmi hpa tma tmi tpa => ?_,
    fun henv => ?_⟩
  · have t2 : truthy (some "2") = true := by decide
    have t18 : truthy (some "18") = true := by decide
    simp [ncclScan, hex, hma, hmi, hpa, t2, t18]
  · simp [ncclScan, hex, hma, hmi, hpa, tma, tmi, tpa]
  · simp [get_nccl_version, henv]

/-- Witness for C7 at the concrete MAJOR 2 / MINOR 18 / no PATCH header. -/
theorem nccl_joins_components_witness :
    get_nccl_version envNcclNoPatch = some "2.18" := by
  have h3 := (nccl_joins_components envNcclNoPatch "/usr/include/nccl.h"
    ["/usr/local/cuda/include/nccl.h"]).2.2 (by decide)
  have h1 := (nccl_joins_components envNcclNoPatch "/usr/include/nccl.h"
    ["/usr/local/cuda/include/nccl.h"]).1 (by decide) (by decide) (by decide)
    (by decide)
  exact h3.trans h1

/-- C4 counterexample: with the variable absent and both candidate headers
existing, extraction fails on the first existing header and the probe
returns a value extracted from the second candidate; changing only the
second candidate changes the result, so later paths are consulted after an
existing file has been found. -/
theorem nccl_scan_consults_later_paths :
    envNcclSecond.pathExists "/usr/include/nccl.h" = true ∧
    envNcclSecond.getenv "NCCL_VERSION" = none ∧
    get_nccl_version envNcclSecond = some "9.9.9" ∧
    get_nccl_version envNcclSecondAlt = some "7.7.7" := by
  refine ⟨rfl, rfl, ?_, ?_⟩ <;> decide

/-- C4 amended: with the variable falsy, the probe returns the result of the
first existing candidate whose extraction yields truthy MAJOR and MINOR
(computed from that candidate alone); a missing candidate, or an existing
one whose extraction fails, is skipped and the scan moves to later
candidates. -/
theorem nccl_scan_first_usable_candidate (env : Env) (p : String)
    (ps : List String) :
    (env.pathExists p = false → ncclScan env (p :: ps) = ncclScan env ps) ∧
    (env.pathExists p = true →
      (truthy (run_command env (ncclCmd "MAJOR" p)) &&
        truthy (run_command env (ncclCmd "MINOR" p))) = false →
      ncclScan env (p :: ps) = ncclScan env ps) ∧
    (env.pathExists p = true →
      truthy (run_command env (ncclCmd "MAJOR" p)) = true →
      truthy (run_command env (ncclCmd "MINOR" p)) = true →
      ncclScan env (p :: ps) =
        if truthy (run_command env (ncclCmd "PATCH" p)) then
          some ((run_command env (ncclCmd "MAJOR" p)).getD "" ++ "." ++
            (run_command env (ncclCmd "MINOR" p)).getD "" ++ "." ++
            (run_command env (ncclCmd "PATCH" p)).getD "")
        else
          some ((run_command env (ncclCmd "MAJOR" p)).getD "" ++ "." ++
            (run_command env (ncclCmd "MINOR" p)).getD "")) := by
  refine ⟨fun hex => by simp [ncclScan, hex], fun hex hf => ?_,
    fun hex hma hmi => ?_⟩
  · cases hA : truthy (run_command env (ncclCmd "MAJOR" p)) <;>
      cases hB : truthy (run_command env (ncclCmd "MINOR" p)) <;>
      rw [hA, hB] at hf <;> simp_all [ncclScan, hex]
  · cases hpa : truthy (run_command env (ncclCmd "PATCH" p)) <;>
      simp [ncclScan, hex, hma, hmi, hpa]

/-- Witness for the amended C4: the first existing header fails extraction
and the scan moves on to the remaining candidates. -/
theorem nccl_scan_first_usable_candidate_witness :
    ncclScan envNcclSecond nccl_h_paths =
      ncclScan envNcclSecond ["/usr/local/cuda/include/nccl.h"] :=
  (nccl_scan_first_usable_candidate envNcclSecond "/usr/include/nccl.h"
    ["/usr/local/cuda/include/nccl.h"]).2.1 rfl (by decide)

/-- C10: an existing header whose MINOR extraction is falsy contributes no
result, whatever MAJOR and PATCH yielded; the scan continues with the
remaining candidate paths. -/
theorem nccl_missing_minor_skips_file (env : Env) (p : String)
    (ps : List String) (hex : env.pathExists p = true)
    (hmi : truthy (run_command env (ncclCmd "MINOR" p)) = false) :
    ncclScan env (p :: ps) = ncclScan env ps := by
  simp [ncclScan, hex, hmi]

/-- Witness for C10: MAJOR 2 and PATCH 3 present, MINOR missing; the file
is skipped and the scan of the remaining (empty) list yields absence. -/
theorem nccl_missing_minor_skips_file_witness :
    ncclScan envNcclNoMinor ["/usr/include/nccl.h"] =
      ncclScan envNcclNoMinor [] :=
  nccl_missing_minor_skips_file envNcclNoMinor "/usr/include/nccl.h" []
    (by decide) (by decide)

/-- C9: a command that exits zero with whitespace-only output strips to the
empty string, which is falsy, so the CUDA probe treats the strategy as a
non-match and falls through to the nvcc strategy. -/
theorem empty_output_falls_through (env : Env) (s : String)
    (hc : env.cmd cudaFileCommand = CmdOutcome.success s)
    (hs : pyStrip s = "") :
    run_command env cudaFileCommand = some "" ∧
    get_cuda_version env = cuda_from_nvcc env := by
  have h1 : run_command env cudaFileCommand = some "" := by
    simp [run_command, hc, hs]
  have ht : truthy (some "") = false := by decide
  exact ⟨h1, by simp [get_cuda_version, h1, ht]⟩

/-- Witness for C9 at the whitespace-only version file environment. -/
theorem empty_output_falls_through_witness :
    run_command envEmptyCudaFile cudaFileCommand = some "" ∧
    get_cuda_version envEmptyCudaFile = cuda_from_nvcc envEmptyCudaFile :=
  empty_output_falls_through envEmptyCudaFile "  \n" rfl (by decide)

/-- C8: main aborts with a usage error, printing nothing, exactly when more
than one positional argument is supplied; otherwise it completes normally
with the full report, whatever the probe results. -/
theorem main_usage_error_iff (argv : List String) (ld : Option String)
    (inst : Bool) (k8s : K8sOutcome) (env : Env) :
    ((main argv ld inst k8s env).outcome = MainOutcome.usageError ↔
      1 < argv.length) ∧
    ((main argv ld inst k8s env).outcome = MainOutcome.usageError →
      (main argv ld inst k8s env).output = []) ∧
    (¬ 1 < argv.length →
      (main argv ld inst k8s env).outcome = MainOutcome.normal ∧
      (main argv ld inst k8s env).output =
        env_dump_lines env ++ ld_path_lines ld ++
          [gke_report_line (get_gke_version inst k8s)] ++
          detect_gpu_libraries env) := by
  by_cases h : 1 < argv.length <;> simp [main, h]

/-- Witness for C8: a run with one extraneous argument prints nothing. -/
theorem main_usage_error_iff_witness :
    (main ["preflight", "extra"] none true K8sOutcome.configException
      envBare).output = [] :=
  (main_usage_error_iff ["preflight", "extra"] none true
    K8sOutcome.configException envBare).2.1 rfl

end Preflight
